import Mathlib

/-!
# Verification of the cell2fate posterior-export pipeline

Shallow embedding of `src/cell2fate/_cell2fate_multiLineage_model_2.py`
(class `Cell2fateModel`): the methods `_export2adata`, `normalize`,
`export_posterior` and `plot_QC`.

Modelling conventions:
* numpy float arrays become functions out of `Fin` index types into `ℚ`
  (exact arithmetic; the floating-point rounding of the original is not
  modelled, the claims under study are about formula structure);
* `C` is the number of cells (`adata.n_obs`), `G` the number of genes
  (`adata.n_vars`), `B` the number of batches;
* the stochastic sampler `self.sample_posterior(**sample_kwargs)` is an
  external effect: the value it returns in a given call is passed to the
  embedded `export_posterior` as the explicit argument `sampledResult`;
* `str(date.today())` is likewise an external effect, passed as the
  explicit argument `today`;
* `np.sqrt` is abstracted as an arbitrary function `sq : ℚ → ℚ` applied
  entrywise (only the structure of its argument matters to the claims);
* Python exceptions become an explicit `err` field / `Except` result;
  assignments to `adata.obs`/`adata.var`/`adata.uns`/`adata.layers` and
  to `self.samples` become `Option`-valued fields of an outcome record,
  `none` meaning "this slot was not (yet) assigned by the call".
-/

namespace Cell2fate

/-- One posterior summary-statistics table (one of `post_sample_means`,
`post_sample_stds`, `post_sample_q05`, `post_sample_q95`): a mapping from
parameter name to array.  Array shapes follow the code's indexing:
`detection_y_cu`/`detection_y_cs` have shape `(1, C, 1)` (flattened to a
per-cell vector for `adata.obs`, and sliced `[0,:,:]` then row-broadcast
in `normalize`), `beta_g` etc. have shape `(G, 1)` (indexed `[...,0]`),
`mu_RNAvelocity` has shape `(C, G, 2)` and `s_g_gene_add` `(B, G, 2)`. -/
structure SummaryStats (C G B : ℕ) where
  T_c : Fin C → ℚ
  detection_y_cu : Fin C → ℚ
  detection_y_cs : Fin C → ℚ
  alpha_g : Fin G → ℚ
  beta_g : Fin G → ℚ
  gamma_g : Fin G → ℚ
  T_gON : Fin G → ℚ
  T_gOFF : Fin G → ℚ
  mu_RNAvelocity : Fin C → Fin G → Fin 2 → ℚ
  s_g_gene_add : Fin B → Fin G → Fin 2 → ℚ
deriving DecidableEq

/-- Raw per-draw posterior samples (`samples['posterior_samples']`), present
only when the sampler was called with `return_samples=True`.  One list entry
per posterior draw. -/
structure RawSamples (C G : ℕ) where
  beta_g : List (Fin G → ℚ)
  gamma_g : List (Fin G → ℚ)
  mu_RNAvelocity : List (Fin C → Fin G → Fin 2 → ℚ)
deriving DecidableEq

/-- The dictionary returned by `self.sample_posterior(...)`. -/
structure Samples (C G B : ℕ) where
  post_sample_means : SummaryStats C G B
  post_sample_stds : SummaryStats C G B
  post_sample_q05 : SummaryStats C G B
  post_sample_q95 : SummaryStats C G B
  posterior_samples : Option (RawSamples C G)
deriving DecidableEq

/-- The slice of the registered AnnData object that the embedded methods
read: names, the two registered count layers and the batch code per cell. -/
structure AnnDataIn (C G B : ℕ) where
  var_names : Fin G → String
  obs_names : Fin C → String
  unspliced : Fin C → Fin G → ℚ
  spliced : Fin C → Fin G → ℚ
  batch : Fin C → Fin B
deriving DecidableEq

/-- The record `_export2adata` builds (stored by the caller in
`adata.uns[export_slot]`). -/
structure ExportRecord (C G B : ℕ) where
  model_name : String
  date : String
  var_names : List String
  obs_names : List String
  post_sample_means : SummaryStats C G B
  post_sample_stds : SummaryStats C G B
  post_sample_q05 : SummaryStats C G B
  post_sample_q95 : SummaryStats C G B
deriving DecidableEq

/-- `Cell2fateModel._export2adata` (lines 139-164): builds the results
record from the samples dictionary and the AnnData names; it reads but
never writes `adata` (a pure transform — hence its embedding consumes
`adata` and returns only the record). -/
def export2adata {C G B : ℕ} (modelName today : String)
    (adata : AnnDataIn C G B) (samples : Samples C G B) :
    ExportRecord C G B :=
  { model_name := modelName
    date := today
    var_names := List.ofFn adata.var_names
    obs_names := List.ofFn adata.obs_names
    post_sample_means := samples.post_sample_means
    post_sample_stds := samples.post_sample_stds
    post_sample_q05 := samples.post_sample_q05
    post_sample_q95 := samples.post_sample_q95 }

/-- Global minimum of a matrix, `A.min()` in numpy (defined as `0` on an
empty matrix, where numpy would raise instead; the claims only use it on
inhabited index types). -/
def matMin {C G : ℕ} (A : Fin C → Fin G → ℚ) : ℚ :=
  if h : (Finset.univ : Finset (Fin C × Fin G)).Nonempty then
    Finset.univ.inf' h (fun p => A p.1 p.2)
  else 0

/-- `pd.get_dummies(obs2sample.flatten())`: the one-hot batch indicator
matrix (cells × batches). -/
def obs2sampleFn {C B : ℕ} (batch : Fin C → Fin B) : Fin C → Fin B → ℚ :=
  fun c b => if batch c = b then 1 else 0

/-- The unspliced corrected matrix of `normalize` (line 183):
`raw/detection - obs2sample · s_g_gene_add[:,:,0]`. -/
def unsplicedCorrected {C G B : ℕ} (samples : SummaryStats C G B)
    (batch : Fin C → Fin B) (unspliced : Fin C → Fin G → ℚ) :
    Fin C → Fin G → ℚ :=
  fun c g => unspliced c g / samples.detection_y_cu c -
    ∑ b, obs2sampleFn batch c b * samples.s_g_gene_add b g 0

/-- The spliced corrected matrix of `normalize` (line 185). -/
def splicedCorrected {C G B : ℕ} (samples : SummaryStats C G B)
    (batch : Fin C → Fin B) (spliced : Fin C → Fin G → ℚ) :
    Fin C → Fin G → ℚ :=
  fun c g => spliced c g / samples.detection_y_cs c -
    ∑ b, obs2sampleFn batch c b * samples.s_g_gene_add b g 1

/-- `Cell2fateModel.normalize` (lines 166-188): returns the pair of new
layers (`unspliced_norm`, `spliced_norm`), each the corrected matrix
shifted by its own global minimum. -/
def normalizeFn {C G B : ℕ} (samples : SummaryStats C G B)
    (batch : Fin C → Fin B) (unspliced spliced : Fin C → Fin G → ℚ) :
    (Fin C → Fin G → ℚ) × (Fin C → Fin G → ℚ) :=
  (fun c g => unsplicedCorrected samples batch unspliced c g -
      matMin (unsplicedCorrected samples batch unspliced),
   fun c g => splicedCorrected samples batch spliced c g -
      matMin (splicedCorrected samples batch spliced))

/-- The velocity layer formula (lines 262-264):
`beta_g[...,0] * mu_RNAvelocity[:,:,0] - gamma_g[...,0] * mu_RNAvelocity[:,:,1]`. -/
def velocityOf {C G B : ℕ} (means : SummaryStats C G B) :
    Fin C → Fin G → ℚ :=
  fun c g => means.beta_g g * means.mu_RNAvelocity c g 0 -
    means.gamma_g g * means.mu_RNAvelocity c g 1

/-- The radicand of the `velocity_sd` layer (lines 265-276), transcribed
from the code's expression. -/
def velocitySdRadicand {C G B : ℕ} (means stds : SummaryStats C G B)
    (c : Fin C) (g : Fin G) : ℚ :=
  (means.beta_g g ^ 2 + stds.beta_g g ^ 2) *
    (means.mu_RNAvelocity c g 0 ^ 2 + stds.mu_RNAvelocity c g 0 ^ 2) -
  means.beta_g g ^ 2 * means.mu_RNAvelocity c g 0 ^ 2 +
  (means.gamma_g g ^ 2 + stds.gamma_g g ^ 2) *
    (means.mu_RNAvelocity c g 1 ^ 2 + stds.mu_RNAvelocity c g 1 ^ 2) -
  means.gamma_g g ^ 2 * means.mu_RNAvelocity c g 1 ^ 2

/-- The `velocity_sd` layer: elementwise `np.sqrt` (abstracted as `sq`)
of the radicand. -/
def velocitySdOf {C G B : ℕ} (sq : ℚ → ℚ) (means stds : SummaryStats C G B) :
    Fin C → Fin G → ℚ :=
  fun c g => sq (velocitySdRadicand means stds c g)

/-- Per-draw velocity samples written to `adata.uns['velocity_posterior']`
(lines 280-282). -/
def velocityPosteriorOf {C G : ℕ} (ps : RawSamples C G) :
    List (Fin C → Fin G → ℚ) :=
  List.zipWith
    (fun (bg : (Fin G → ℚ) × (Fin G → ℚ)) (mu : Fin C → Fin G → Fin 2 → ℚ) =>
      fun c g => bg.1 g * mu c g 0 - bg.2 g * mu c g 1)
    (ps.beta_g.zip ps.gamma_g) ps.mu_RNAvelocity

/-- The `sample_kwargs` argument of `export_posterior`: either omitted /
`None`, some non-dict value, or a dict that may or may not contain the
key `'return_samples'`. -/
inductive SampleKw where
  | passedNone : SampleKw
  | passedNonDict : SampleKw
  | passedDict (return_samples : Option Bool) : SampleKw
deriving DecidableEq

/-- Line 230, `sample_kwargs if isinstance(sample_kwargs, dict) else dict()`,
followed by the lookup `sample_kwargs['return_samples']`: anything that is
not a dict is replaced by an empty dict, which lacks the key. -/
def SampleKw.normalized : SampleKw → Option Bool
  | .passedDict rs => rs
  | _ => none

/-- Everything `export_posterior` may write: the raised exception if any,
the rebinding of `self.samples`, and each AnnData annotation slot.
`none` means the call did not assign that slot. -/
structure ExportOutcome (C G B : ℕ) where
  err : Option String := none
  selfSamples : Option (Samples C G B) := none
  uns_export : Option (ExportRecord C G B) := none
  uns_post_samples : Option (RawSamples C G) := none
  uns_velocity_posterior : Option (List (Fin C → Fin G → ℚ)) := none
  obs_latent_time_mean : Option (Fin C → ℚ) := none
  obs_latent_time_sd : Option (Fin C → ℚ) := none
  obs_nf_unspliced_mean : Option (Fin C → ℚ) := none
  obs_nf_unspliced_sd : Option (Fin C → ℚ) := none
  obs_nf_spliced_mean : Option (Fin C → ℚ) := none
  obs_nf_spliced_sd : Option (Fin C → ℚ) := none
  var_transcription_rate_mean : Option (Fin G → ℚ) := none
  var_transcription_rate_sd : Option (Fin G → ℚ) := none
  var_splicing_rate_mean : Option (Fin G → ℚ) := none
  var_splicing_rate_sd : Option (Fin G → ℚ) := none
  var_degredation_rate_mean : Option (Fin G → ℚ) := none
  var_degredation_rate_sd : Option (Fin G → ℚ) := none
  var_switchON_time_mean : Option (Fin G → ℚ) := none
  var_switchON_time_sd : Option (Fin G → ℚ) := none
  var_switchOFF_time_mean : Option (Fin G → ℚ) := none
  var_switchOFF_time_sd : Option (Fin G → ℚ) := none
  layers_velocity : Option (Fin C → Fin G → ℚ) := none
  layers_velocity_sd : Option (Fin C → Fin G → ℚ) := none
  layers_unspliced_norm : Option (Fin C → Fin G → ℚ) := none
  layers_spliced_norm : Option (Fin C → Fin G → ℚ) := none
deriving DecidableEq

/-- The straight-line tail of `export_posterior` (lines 244-288), reached
once the `'return_samples'` lookups have succeeded: all obs/var columns,
the velocity layers, optionally the velocity posterior and the normalized
layers.  `psOpt` is `samples.posterior_samples` when `return_samples` was
true, `none` otherwise. -/
def fullAssignOutcome {C G B : ℕ} (modelName today : String) (sq : ℚ → ℚ)
    (adata : AnnDataIn C G B) (samples : Samples C G B)
    (psOpt : Option (RawSamples C G))
    (full_velocity_posterior normalize : Bool) : ExportOutcome C G B :=
  { err := none
    selfSamples := some samples
    uns_export := some (export2adata modelName today adata samples)
    uns_post_samples := psOpt
    uns_velocity_posterior :=
      match psOpt with
      | some ps => if full_velocity_posterior then
          some (velocityPosteriorOf ps) else none
      | none => none
    obs_latent_time_mean := some samples.post_sample_means.T_c
    obs_latent_time_sd := some samples.post_sample_stds.T_c
    obs_nf_unspliced_mean := some samples.post_sample_means.detection_y_cu
    obs_nf_unspliced_sd := some samples.post_sample_stds.detection_y_cu
    obs_nf_spliced_mean := some samples.post_sample_means.detection_y_cs
    obs_nf_spliced_sd := some samples.post_sample_stds.detection_y_cs
    var_transcription_rate_mean := some samples.post_sample_means.alpha_g
    var_transcription_rate_sd := some samples.post_sample_stds.alpha_g
    var_splicing_rate_mean := some samples.post_sample_means.beta_g
    var_splicing_rate_sd := some samples.post_sample_stds.beta_g
    var_degredation_rate_mean := some samples.post_sample_means.gamma_g
    var_degredation_rate_sd := some samples.post_sample_stds.gamma_g
    var_switchON_time_mean := some samples.post_sample_means.T_gON
    var_switchON_time_sd := some samples.post_sample_stds.T_gON
    var_switchOFF_time_mean := some samples.post_sample_means.T_gOFF
    var_switchOFF_time_sd := some samples.post_sample_stds.T_gOFF
    layers_velocity := some (velocityOf samples.post_sample_means)
    layers_velocity_sd := some (velocitySdOf sq samples.post_sample_means
      samples.post_sample_stds)
    layers_unspliced_norm := if normalize then
      some (normalizeFn samples.post_sample_means adata.batch
        adata.unspliced adata.spliced).1 else none
    layers_spliced_norm := if normalize then
      some (normalizeFn samples.post_sample_means adata.batch
        adata.unspliced adata.spliced).2 else none }

/-- `Cell2fateModel.export_posterior` (lines 190-288).  `prevSamples` is
the value of `self.samples` before the call (the code never reads it:
line 234 rebinds `self.samples` to the fresh sampler output before any
use).  `sampledResult` is the value returned by the external stochastic
call `self.sample_posterior(**sample_kwargs)` during this call, and
`today` the value of `str(date.today())`.  The two `KeyError` paths stop
the method after `self.samples` and `adata.uns[export_slot]` have already
been assigned. -/
def exportPosterior {C G B : ℕ} (modelName today : String) (sq : ℚ → ℚ)
    (prevSamples : Option (Samples C G B)) (adata : AnnDataIn C G B)
    (sampledResult : Samples C G B) (sample_kwargs : SampleKw)
    (full_velocity_posterior normalize : Bool) : ExportOutcome C G B :=
  let samples := sampledResult
  let record := export2adata modelName today adata samples
  match sample_kwargs.normalized with
  | none =>
      { err := some "KeyError: return_samples"
        selfSamples := some samples
        uns_export := some record }
  | some rs =>
      if rs then
        match samples.posterior_samples with
        | none =>
            { err := some "KeyError: posterior_samples"
              selfSamples := some samples
              uns_export := some record }
        | some ps =>
            fullAssignOutcome modelName today sq adata samples (some ps)
              full_velocity_posterior normalize
      else
        fullAssignOutcome modelName today sq adata samples none
          full_velocity_posterior normalize

/-- The `summary_name` argument of `plot_QC` ('means', 'stds', 'q05',
'q95'). -/
inductive SummaryName where
  | means : SummaryName
  | stds : SummaryName
  | q05 : SummaryName
  | q95 : SummaryName
deriving DecidableEq

/-- The lookup `self.samples[f"post_sample_{summary_name}"]`. -/
def Samples.select {C G B : ℕ} (s : Samples C G B) : SummaryName → SummaryStats C G B
  | .means => s.post_sample_means
  | .stds => s.post_sample_stds
  | .q05 => s.post_sample_q05
  | .q95 => s.post_sample_q95

/-- A numpy ndarray as a nested list of rationals (rectangular in all the
uses below). -/
inductive NDArr where
  | scalar (x : ℚ) : NDArr
  | arr (xs : List NDArr) : NDArr

/-- `A.shape` of an ndarray (for a rectangular array; the head row
determines the trailing dimensions, as everywhere in numpy). -/
def NDArr.shape : NDArr → List ℕ
  | .scalar _ => []
  | .arr [] => [0]
  | .arr (x :: xs) => (xs.length + 1) :: x.shape

/-- A dense 2-D numpy array built from a cells × genes matrix. -/
def matToND {C G : ℕ} (A : Fin C → Fin G → ℚ) : NDArr :=
  .arr ((List.finRange C).map fun c =>
    .arr ((List.finRange G).map fun g => .scalar (A c g)))

/-- Numpy semantics of `A[ind_x, :]` for a 2-D array `A`, as used at
lines 338 and 344: with an integer-array index the selected rows; with
`ind_x = None` the index is `np.newaxis`, which INSERTS A LEADING AXIS of
length 1 (result shape `(1, C, G)`), it does not select rows. -/
def npRowIndex {C G : ℕ} (A : Fin C → Fin G → ℚ) :
    Option (List (Fin C)) → NDArr
  | some l => .arr (l.map fun c =>
      .arr ((List.finRange G).map fun g => .scalar (A c g)))
  | none => .arr [matToND A]

/-- `np.random.choice(n, size, replace=False)`: raises `ValueError` when
`size > n`, otherwise returns the drawn index list.  The actual random
draw is the external oracle `draw` (one call per `size`); its documented
contract — `size` distinct indices below `n`, drawn uniformly — is a
hypothesis of the theorems that use it. -/
def npRandomChoice {n : ℕ} (size : ℕ) (draw : ℕ → List (Fin n)) :
    Except String (List (Fin n)) :=
  if size ≤ n then .ok (draw size)
  else .error "ValueError: Cannot take a larger sample than population when replace is False"

/-- What one `plot_QC` call computes before handing off to the (external)
plotting helpers: the index set passed to `compute_expected` and used to
slice both observed layers, the summary table passed to
`compute_expected`, and the two sliced observed arrays. -/
structure QCOutcome (C G B : ℕ) where
  ind_x : Option (List (Fin C))
  summary_used : SummaryStats C G B
  u_data : NDArr
  s_data : NDArr

/-- `Cell2fateModel.plot_QC` (lines 304-349).  `selfSamples` is the value
of the `samples` attribute (`none` when `export_posterior` has not been
run, in which case `getattr(self, "samples", False) is False` holds and a
`RuntimeError` is raised first).  `compute_expected` (an external module
method) receives `samples.select summary_name` and `ind_x`; the observed
layers are sliced with the same single `ind_x`. -/
def plotQC {C G B : ℕ} (selfSamples : Option (Samples C G B))
    (adata : AnnDataIn C G B) (summary_name : SummaryName)
    (use_n_obs : Option ℕ) (draw : ℕ → List (Fin C)) :
    Except String (QCOutcome C G B) :=
  match selfSamples with
  | none => .error "self.samples is missing, please run self.export_posterior() first"
  | some samples =>
      match use_n_obs with
      | some u =>
          match npRandomChoice (min u C) draw with
          | .error e => .error e
          | .ok l =>
              .ok { ind_x := some l
                    summary_used := samples.select summary_name
                    u_data := npRowIndex adata.unspliced (some l)
                    s_data := npRowIndex adata.spliced (some l) }
      | none =>
          .ok { ind_x := none
                summary_used := samples.select summary_name
                u_data := npRowIndex adata.unspliced none
                s_data := npRowIndex adata.spliced none }

/-! ## Concrete inputs used by the witnesses and counterexamples -/

/-- A summary-statistics table with every entry equal to `x`. -/
def constStats (C G B : ℕ) (x : ℚ) : SummaryStats C G B :=
  { T_c := fun _ => x
    detection_y_cu := fun _ => x
    detection_y_cs := fun _ => x
    alpha_g := fun _ => x
    beta_g := fun _ => x
    gamma_g := fun _ => x
    T_gON := fun _ => x
    T_gOFF := fun _ => x
    mu_RNAvelocity := fun _ _ _ => x
    s_g_gene_add := fun _ _ _ => x }

/-- The one-cell/one-gene posterior means of the spec's round-trip
scenario: `beta_g = [2.0]`, `gamma_g = [1.0]`, `mu_RNAvelocity[:,:,0] = [3.0]`,
`mu_RNAvelocity[:,:,1] = [1.0]`. -/
def demoMeans : SummaryStats 1 1 1 :=
  { constStats 1 1 1 0 with
    beta_g := fun _ => 2
    gamma_g := fun _ => 1
    mu_RNAvelocity := fun _ _ i => if i = 0 then 3 else 1 }

/-- A one-cell/one-gene samples dictionary built around `demoMeans`
(all other summaries zero, no raw samples). -/
def demoSamples : Samples 1 1 1 :=
  { post_sample_means := demoMeans
    post_sample_stds := constStats 1 1 1 0
    post_sample_q05 := constStats 1 1 1 0
    post_sample_q95 := constStats 1 1 1 0
    posterior_samples := none }

/-- A one-cell/one-gene registered AnnData object. -/
def demoAdata : AnnDataIn 1 1 1 :=
  { var_names := fun _ => "gene0"
    obs_names := fun _ => "cell0"
    unspliced := fun _ _ => 1
    spliced := fun _ _ => 1
    batch := fun _ => 0 }

/-- A two-cell/one-gene AnnData object (for the `use_n_obs=None` shape
counterexample). -/
def demoAdata2 : AnnDataIn 2 1 1 :=
  { var_names := fun _ => "gene0"
    obs_names := fun c => if c = 0 then "cell0" else "cell1"
    unspliced := fun _ _ => 1
    spliced := fun _ _ => 1
    batch := fun _ => 0 }

/-- A two-cell/one-gene samples dictionary (all summaries zero). -/
def demoSamples2 : Samples 2 1 1 :=
  { post_sample_means := constStats 2 1 1 0
    post_sample_stds := constStats 2 1 1 0
    post_sample_q05 := constStats 2 1 1 0
    post_sample_q95 := constStats 2 1 1 0
    posterior_samples := none }

/-- A 500-cell AnnData object (for the 1000-of-500 subsample scenario). -/
def demoAdata500 : AnnDataIn 500 1 1 :=
  { var_names := fun _ => "gene0"
    obs_names := fun _ => "cell"
    unspliced := fun _ _ => 0
    spliced := fun _ _ => 0
    batch := fun _ => 0 }

/-- A 500-cell samples dictionary (all summaries zero). -/
def demoSamples500 : Samples 500 1 1 :=
  { post_sample_means := constStats 500 1 1 0
    post_sample_stds := constStats 500 1 1 0
    post_sample_q05 := constStats 500 1 1 0
    post_sample_q95 := constStats 500 1 1 0
    posterior_samples := none }

/-- A deterministic stand-in for the random-draw oracle on 500 cells:
the first `k` cell indices. -/
def demoDraw500 : ℕ → List (Fin 500) := fun k => (List.finRange 500).take k

/-! ## Helper lemmas -/

/-- The global matrix minimum is below every entry. -/
theorem matMin_le {C G : ℕ} (A : Fin C → Fin G → ℚ) (c : Fin C) (g : Fin G) :
    matMin A ≤ A c g := by
  have hne : (Finset.univ : Finset (Fin C × Fin G)).Nonempty :=
    ⟨(c, g), Finset.mem_univ _⟩
  rw [matMin, dif_pos hne]
  exact Finset.inf'_le _ (Finset.mem_univ (c, g))

/-- Multiplying by the one-hot batch indicator row selects the row of the
per-batch table belonging to the cell's batch. -/
theorem indicator_dot {C B : ℕ} (batch : Fin C → Fin B) (c : Fin C)
    (f : Fin B → ℚ) :
    ∑ b, obs2sampleFn batch c b * f b = f (batch c) := by
  simp [obs2sampleFn, ite_mul, Finset.sum_ite_eq]

/-- Shape of a numpy array built as a nonempty list of same-shape rows. -/
theorem shape_arr_map {α : Type} (f : α → NDArr) (l : List α)
    (hne : l ≠ []) (sh : List ℕ) (hsh : ∀ a ∈ l, (f a).shape = sh) :
    (NDArr.arr (l.map f)).shape = l.length :: sh := by
  cases l with
  | nil => exact absurd rfl hne
  | cons x xs =>
      simp [NDArr.shape, hsh x (List.mem_cons_self x xs)]

/-- A dense cells × genes matrix has numpy shape `(C, G)`. -/
theorem matToND_shape {C G : ℕ} (hC : 0 < C) (hG : 0 < G)
    (A : Fin C → Fin G → ℚ) : (matToND A).shape = [C, G] := by
  rw [matToND, shape_arr_map _ _ ?hne [G] ?hsh]
  · simp
  case hne =>
    apply List.ne_nil_of_length_pos
    simpa using hC
  case hsh =>
    intro c _
    rw [shape_arr_map _ _ ?hne2 [] ?hsh2]
    · simp
    case hne2 =>
      apply List.ne_nil_of_length_pos
      simpa using hG
    case hsh2 =>
      intro g _
      rfl

/-! ## Claim theorems -/

/-- C1: for every posterior-means mapping, whenever `export_posterior`
writes the `adata.layers['velocity']` slot, the written matrix equals,
entrywise over cells `c` and genes `g`, `beta_g[g] * mu_RNAvelocity[c,g,0]
- gamma_g[g] * mu_RNAvelocity[c,g,1]` of `post_sample_means`. -/
theorem exportPosterior_velocity_layer {C G B : ℕ} (modelName today : String)
    (sq : ℚ → ℚ) (prev : Option (Samples C G B)) (adata : AnnDataIn C G B)
    (s : Samples C G B) (kw : SampleKw) (fvp nrm : Bool)
    (v : Fin C → Fin G → ℚ)
    (hv : (exportPosterior modelName today sq prev adata s kw fvp
      nrm).layers_velocity = some v) (c : Fin C) (g : Fin G) :
    v c g = s.post_sample_means.beta_g g * s.post_sample_means.mu_RNAvelocity c g 0 -
      s.post_sample_means.gamma_g g * s.post_sample_means.mu_RNAvelocity c g 1 := by
  cases hkw : kw.normalized with
  | none => simp [exportPosterior, hkw] at hv
  | some rs =>
      cases rs with
      | false =>
          simp [exportPosterior, hkw, fullAssignOutcome] at hv
          rw [← hv]
          rfl
      | true =>
          cases hps : s.posterior_samples with
          | none => simp [exportPosterior, hkw, hps] at hv
          | some ps =>
              simp [exportPosterior, hkw, hps, fullAssignOutcome] at hv
              rw [← hv]
              rfl

/-- Witness for C1: on the spec's one-cell/one-gene round-trip scenario
(`beta=[2]`, `gamma=[1]`, `mu0=[3]`, `mu1=[1]`) the written velocity entry
is `2*3 - 1*1 = 5`. -/
theorem exportPosterior_velocity_layer_witness :
    (exportPosterior "model" "2026-01-01" id none demoAdata demoSamples
        (SampleKw.passedDict (some false)) false false).layers_velocity =
      some (velocityOf demoSamples.post_sample_means) ∧
    velocityOf demoSamples.post_sample_means 0 0 = 5 := by
  constructor
  · rfl
  · have h := exportPosterior_velocity_layer "model" "2026-01-01" id none
      demoAdata demoSamples (SampleKw.passedDict (some false)) false false
      (velocityOf demoSamples.post_sample_means) rfl 0 0
    rw [h]
    norm_num [demoSamples, demoMeans, constStats]

/-- The velocity-uncertainty formula exactly as the spec documents it
(§4.4, legacy behavior): `sqrt((E[beta]²+sd_beta²)(E[mu0]²+sd_mu0²)
- E[beta]²E[mu0]² + (E[gamma]²+sd_gamma²)(E[mu1]²+sd_mu1²)
- E[gamma]²E[mu1]²)`, written from the spec's words for comparison with
the code's expression. -/
def velocitySdDocumented (sq : ℚ → ℚ) (Eb sb Eg sg Em0 sm0 Em1 sm1 : ℚ) : ℚ :=
  sq ((Eb ^ 2 + sb ^ 2) * (Em0 ^ 2 + sm0 ^ 2) - Eb ^ 2 * Em0 ^ 2 +
      (Eg ^ 2 + sg ^ 2) * (Em1 ^ 2 + sm1 ^ 2) - Eg ^ 2 * Em1 ^ 2)

/-- C2: whenever `export_posterior` writes `adata.layers['velocity_sd']`,
the written entry equals the documented legacy formula applied to the
means and standard deviations of `beta_g`, `gamma_g` and the two
components of `mu_RNAvelocity` — the code preserves the documented
formula exactly. -/
theorem exportPosterior_velocity_sd_layer {C G B : ℕ}
    (modelName today : String) (sq : ℚ → ℚ) (prev : Option (Samples C G B))
    (adata : AnnDataIn C G B) (s : Samples C G B) (kw : SampleKw)
    (fvp nrm : Bool) (v : Fin C → Fin G → ℚ)
    (hv : (exportPosterior modelName today sq prev adata s kw fvp
      nrm).layers_velocity_sd = some v) (c : Fin C) (g : Fin G) :
    v c g = velocitySdDocumented sq
      (s.post_sample_means.beta_g g) (s.post_sample_stds.beta_g g)
      (s.post_sample_means.gamma_g g) (s.post_sample_stds.gamma_g g)
      (s.post_sample_means.mu_RNAvelocity c g 0)
      (s.post_sample_stds.mu_RNAvelocity c g 0)
      (s.post_sample_means.mu_RNAvelocity c g 1)
      (s.post_sample_stds.mu_RNAvelocity c g 1) := by
  cases hkw : kw.normalized with
  | none => simp [exportPosterior, hkw] at hv
  | some rs =>
      cases rs with
      | false =>
          simp [exportPosterior, hkw, fullAssignOutcome] at hv
          rw [← hv]
          rfl
      | true =>
          cases hps : s.posterior_samples with
          | none => simp [exportPosterior, hkw, hps] at hv
          | some ps =>
              simp [exportPosterior, hkw, hps, fullAssignOutcome] at hv
              rw [← hv]
              rfl

/-- Witness for C2: the documented formula evaluated on the concrete
demo posterior (stds all zero) matches the written layer entry. -/
theorem exportPosterior_velocity_sd_layer_witness :
    (exportPosterior "model" "2026-01-01" id none demoAdata demoSamples
        (SampleKw.passedDict (some false)) false false).layers_velocity_sd =
      some (velocitySdOf id demoSamples.post_sample_means
        demoSamples.post_sample_stds) ∧
    velocitySdOf id demoSamples.post_sample_means
        demoSamples.post_sample_stds 0 0 =
      velocitySdDocumented id 2 0 1 0 3 0 1 0 := by
  constructor
  · rfl
  · have h := exportPosterior_velocity_sd_layer "model" "2026-01-01" id none
      demoAdata demoSamples (SampleKw.passedDict (some false)) false false
      (velocitySdOf id demoSamples.post_sample_means
        demoSamples.post_sample_stds) rfl 0 0
    rw [h]
    norm_num [velocitySdDocumented, demoSamples, demoMeans, constStats]

/-- C3: `normalize` writes, for each modality, the corrected matrix
`raw/detection_efficiency - background(batch)` shifted by the global
minimum of that corrected matrix, and consequently every entry of both
output layers is nonnegative.  (The one-hot-indicator matrix product of
the code is bridged to per-batch row selection by `indicator_dot`.) -/
theorem normalize_floor_clamp {C G B : ℕ} (s : SummaryStats C G B)
    (batch : Fin C → Fin B) (u sp : Fin C → Fin G → ℚ)
    (c : Fin C) (g : Fin G) :
    (normalizeFn s batch u sp).1 c g =
      (u c g / s.detection_y_cu c - s.s_g_gene_add (batch c) g 0) -
        matMin (unsplicedCorrected s batch u) ∧
    0 ≤ (normalizeFn s batch u sp).1 c g ∧
    (normalizeFn s batch u sp).2 c g =
      (sp c g / s.detection_y_cs c - s.s_g_gene_add (batch c) g 1) -
        matMin (splicedCorrected s batch sp) ∧
    0 ≤ (normalizeFn s batch u sp).2 c g := by
  refine ⟨?_, ?_, ?_, ?_⟩
  · simp [normalizeFn, unsplicedCorrected, indicator_dot]
  · have h := matMin_le (unsplicedCorrected s batch u) c g
    simp only [normalizeFn]
    linarith
  · simp [normalizeFn, splicedCorrected, indicator_dot]
  · have h := matMin_le (splicedCorrected s batch sp) c g
    simp only [normalizeFn]
    linarith

/-- C4: `_export2adata` returns the record with the model identifier, the
export date, variable/observation name lists of lengths `G` and `C`, and
the four posterior summary mappings verbatim.  Its embedding consumes the
AnnData object and returns only the record: the method reads
`adata.var_names`/`adata.obs_names` but never writes the data object
(attaching the record is the caller's line 238). -/
theorem export2adata_record {C G B : ℕ} (modelName today : String)
    (adata : AnnDataIn C G B) (samples : Samples C G B) :
    (export2adata modelName today adata samples).model_name = modelName ∧
    (export2adata modelName today adata samples).date = today ∧
    (export2adata modelName today adata samples).var_names.length = G ∧
    (export2adata modelName today adata samples).obs_names.length = C ∧
    (export2adata modelName today adata samples).post_sample_means =
      samples.post_sample_means ∧
    (export2adata modelName today adata samples).post_sample_stds =
      samples.post_sample_stds ∧
    (export2adata modelName today adata samples).post_sample_q05 =
      samples.post_sample_q05 ∧
    (export2adata modelName today adata samples).post_sample_q95 =
      samples.post_sample_q95 := by
  refine ⟨rfl, rfl, ?_, ?_, rfl, rfl, rfl, rfl⟩ <;>
    simp [export2adata]

/-- C5 counterexample: two `export_posterior` calls with identical sampler
output (and `normalize=False`) made on different days produce different
annotation values — the `adata.uns[export_slot]` record stores
`str(date.today())`, so the annotations are not a pure function of
`self.samples` alone. -/
theorem exportPosterior_date_dependence :
    exportPosterior "model" "2026-01-01" id none demoAdata demoSamples
        (SampleKw.passedDict (some false)) false false ≠
      exportPosterior "model" "2026-01-02" id none demoAdata demoSamples
        (SampleKw.passedDict (some false)) false false := by
  intro h
  have h2 := congrArg
    (fun o : ExportOutcome 1 1 1 => o.uns_export.map fun r => r.date) h
  simp [exportPosterior, SampleKw.normalized, demoSamples, fullAssignOutcome,
    export2adata] at h2

/-- C5 amended: with `normalize=False`, the annotation values written by
`export_posterior` are a deterministic pure function of the posterior
samples dictionary and the export date: two calls with the same sampler
output made on the same date produce identical annotation values,
whatever `self.samples` held before each call.  (As stated, the claim
fails only on the `date` field of the export record, which depends on the
day of the call and not on `self.samples`.) -/
theorem exportPosterior_pure_in_samples_and_date {C G B : ℕ}
    (mn d1 d2 : String) (sq : ℚ → ℚ) (prev1 prev2 : Option (Samples C G B))
    (adata : AnnDataIn C G B) (s1 s2 : Samples C G B) (kw : SampleKw)
    (fvp : Bool) (hs : s1 = s2) (hd : d1 = d2) :
    exportPosterior mn d1 sq prev1 adata s1 kw fvp false =
      exportPosterior mn d2 sq prev2 adata s2 kw fvp false := by
  subst hs
  subst hd
  rfl

/-- Witness for the amended C5, with distinct cached `self.samples`
values before the two calls. -/
theorem exportPosterior_pure_in_samples_and_date_witness :
    demoSamples = demoSamples ∧ ("2026-01-01" : String) = "2026-01-01" ∧
    exportPosterior "model" "2026-01-01" id none demoAdata demoSamples
        (SampleKw.passedDict (some false)) false false =
      exportPosterior "model" "2026-01-01" id (some demoSamples) demoAdata
        demoSamples (SampleKw.passedDict (some false)) false false :=
  ⟨rfl, rfl,
    exportPosterior_pure_in_samples_and_date "model" "2026-01-01"
      "2026-01-01" id none (some demoSamples) demoAdata demoSamples
      demoSamples (SampleKw.passedDict (some false)) false rfl rfl⟩

/-- C6: with an integer `use_n_obs`, `plot_QC` passes
`min(use_n_obs, n_obs)` to `np.random.choice(n_obs, ·, replace=False)`
(so the call cannot request more than the population and does not raise),
and the single drawn index list is the one used for both the unspliced
and the spliced observed data.  The oracle hypothesis `hdraw` is
`np.random.choice`'s contract: a without-replacement draw of the
requested size. -/
theorem plotQC_subsample_min_clamp {C G B : ℕ} (s : Samples C G B)
    (adata : AnnDataIn C G B) (sn : SummaryName) (u : ℕ)
    (draw : ℕ → List (Fin C))
    (hdraw : ∀ k, k ≤ C → (draw k).length = k ∧ (draw k).Nodup) :
    ∃ out, plotQC (some s) adata sn (some u) draw = .ok out ∧
      out.ind_x = some (draw (min u C)) ∧
      (draw (min u C)).length = min u C ∧
      (draw (min u C)).Nodup ∧
      out.u_data = npRowIndex adata.unspliced out.ind_x ∧
      out.s_data = npRowIndex adata.spliced out.ind_x := by
  have hm : min u C ≤ C := min_le_right u C
  obtain ⟨hlen, hnd⟩ := hdraw (min u C) hm
  refine ⟨{ ind_x := some (draw (min u C))
            summary_used := s.select sn
            u_data := npRowIndex adata.unspliced (some (draw (min u C)))
            s_data := npRowIndex adata.spliced (some (draw (min u C))) },
    ?_, rfl, hlen, hnd, rfl, rfl⟩
  simp [plotQC, npRandomChoice, hm]

/-- Witness for C6: the spec's diagnostics scenario — `use_n_obs=1000` on
a 500-cell dataset draws `min 1000 500 = 500` cells and does not raise. -/
theorem plotQC_subsample_min_clamp_witness :
    (∀ k, k ≤ 500 → (demoDraw500 k).length = k ∧ (demoDraw500 k).Nodup) ∧
    (∃ out, plotQC (some demoSamples500) demoAdata500 SummaryName.means
        (some 1000) demoDraw500 = .ok out ∧
      out.ind_x = some (demoDraw500 (min 1000 500)) ∧
      (demoDraw500 (min 1000 500)).length = min 1000 500 ∧
      (demoDraw500 (min 1000 500)).Nodup ∧
      out.u_data = npRowIndex demoAdata500.unspliced out.ind_x ∧
      out.s_data = npRowIndex demoAdata500.spliced out.ind_x) := by
  have hd : ∀ k, k ≤ 500 → (demoDraw500 k).length = k ∧ (demoDraw500 k).Nodup := by
    intro k hk
    constructor
    · simp [demoDraw500]
      omega
    · exact ((List.take_sublist k _).nodup (List.nodup_finRange 500))
  exact ⟨hd, plotQC_subsample_min_clamp demoSamples500 demoAdata500
    SummaryName.means 1000 demoDraw500 hd⟩

/-- C7 counterexample: with `use_n_obs=None` the observed data matrix is
sliced as `data[None, :]`, and in numpy `None` is `np.newaxis`: on a
2-cell/1-gene dataset the sliced unspliced array has shape `(1, 2, 1)`,
not the claimed `(cells, genes) = (2, 1)`. -/
theorem plotQC_none_observed_shape_cex :
    (plotQC (some demoSamples2) demoAdata2 SummaryName.means none
        (fun _ => [])).map (fun out => out.u_data.shape) = .ok [1, 2, 1] ∧
    ([1, 2, 1] : List ℕ) ≠ [2, 1] := by
  exact ⟨rfl, by decide⟩

/-- C7 amended: `plot_QC` with `use_n_obs=None` performs no subsampling —
`ind_x = None` is passed to the expected-counts computation, and each
observed data matrix contains all cells and all genes — but the observed
arrays carry an extra leading singleton axis (numpy treats the `None` row
index as `np.newaxis`), so their shape is `(1, cells, genes)` rather than
`(cells, genes)`. -/
theorem plotQC_none_full_population {C G B : ℕ} (s : Samples C G B)
    (adata : AnnDataIn C G B) (sn : SummaryName) (draw : ℕ → List (Fin C))
    (hC : 0 < C) (hG : 0 < G) :
    ∃ out, plotQC (some s) adata sn none draw = .ok out ∧
      out.ind_x = none ∧
      out.u_data = NDArr.arr [matToND adata.unspliced] ∧
      out.s_data = NDArr.arr [matToND adata.spliced] ∧
      out.u_data.shape = [1, C, G] ∧
      out.s_data.shape = [1, C, G] := by
  refine ⟨{ ind_x := none
            summary_used := s.select sn
            u_data := npRowIndex adata.unspliced none
            s_data := npRowIndex adata.spliced none },
    rfl, rfl, rfl, rfl, ?_, ?_⟩ <;>
    simp [npRowIndex, NDArr.shape, matToND_shape hC hG]

/-- Witness for the amended C7 on the concrete 2-cell/1-gene dataset. -/
theorem plotQC_none_full_population_witness :
    (0 < 2 ∧ 0 < 1) ∧
    (∃ out, plotQC (some demoSamples2) demoAdata2 SummaryName.means none
        (fun _ => []) = .ok out ∧
      out.ind_x = none ∧
      out.u_data = NDArr.arr [matToND demoAdata2.unspliced] ∧
      out.s_data = NDArr.arr [matToND demoAdata2.spliced] ∧
      out.u_data.shape = [1, 2, 1] ∧
      out.s_data.shape = [1, 2, 1]) :=
  ⟨⟨by decide, by decide⟩,
    plotQC_none_full_population demoSamples2 demoAdata2 SummaryName.means
      (fun _ => []) (by decide) (by decide)⟩

/-- C8: `plot_QC` raises the descriptive `RuntimeError` exactly when the
`samples` attribute is absent, before any subsample is drawn or expected
counts computed (the error branch is taken first and returns nothing
else); when `self.samples` exists the call returns normally for every
`use_n_obs`. -/
theorem plotQC_precondition {C G B : ℕ} (adata : AnnDataIn C G B)
    (sn : SummaryName) (uno : Option ℕ) (draw : ℕ → List (Fin C)) :
    plotQC (none : Option (Samples C G B)) adata sn uno draw =
      .error "self.samples is missing, please run self.export_posterior() first" ∧
    ∀ s : Samples C G B, ∃ out, plotQC (some s) adata sn uno draw = .ok out := by
  constructor
  · rfl
  · intro s
    cases uno with
    | none => exact ⟨_, rfl⟩
    | some u =>
        have hm : min u C ≤ C := min_le_right u C
        refine ⟨{ ind_x := some (draw (min u C))
                  summary_used := s.select sn
                  u_data := npRowIndex adata.unspliced (some (draw (min u C)))
                  s_data := npRowIndex adata.spliced (some (draw (min u C))) }, ?_⟩
        simp [plotQC, npRandomChoice, hm]

/-- C9: when `sample_kwargs` is omitted, is not a dict (it is replaced by
an empty dict), or lacks the key `'return_samples'`, `export_posterior`
stops with a `KeyError` at the `sample_kwargs['return_samples']` check —
and at that point `self.samples` and `adata.uns[export_slot]` have
already been assigned while every other annotation slot has not: the
failure leaves the data object partially updated. -/
theorem exportPosterior_missing_return_samples {C G B : ℕ}
    (mn d : String) (sq : ℚ → ℚ) (prev : Option (Samples C G B))
    (adata : AnnDataIn C G B) (s : Samples C G B) (kw : SampleKw)
    (fvp nrm : Bool)
    (h : kw = .passedNone ∨ kw = .passedNonDict ∨ kw = .passedDict none) :
    exportPosterior mn d sq prev adata s kw fvp nrm =
      { err := some "KeyError: return_samples"
        selfSamples := some s
        uns_export := some (export2adata mn d adata s) } := by
  have hkw : kw.normalized = none := by
    rcases h with rfl | rfl | rfl <;> rfl
  simp [exportPosterior, hkw]

/-- Witness for C9: a call with `sample_kwargs` omitted (`None`). -/
theorem exportPosterior_missing_return_samples_witness :
    (SampleKw.passedNone = SampleKw.passedNone ∨
      SampleKw.passedNone = SampleKw.passedNonDict ∨
      SampleKw.passedNone = SampleKw.passedDict none) ∧
    exportPosterior "model" "2026-01-01" id none demoAdata demoSamples
        SampleKw.passedNone false true =
      { err := some "KeyError: return_samples"
        selfSamples := some demoSamples
        uns_export := some (export2adata "model" "2026-01-01" demoAdata
          demoSamples) } :=
  ⟨Or.inl rfl,
    exportPosterior_missing_return_samples "model" "2026-01-01" id none
      demoAdata demoSamples SampleKw.passedNone false true (Or.inl rfl)⟩

/-- C10: every `export_posterior` call rebinds `self.samples` to the
freshly drawn sampler output before exporting — the export record is
built from the fresh draw, and the whole outcome is independent of
whatever `self.samples` held before the call. -/
theorem exportPosterior_fresh_sampling {C G B : ℕ} (mn d : String)
    (sq : ℚ → ℚ) (prev1 prev2 : Option (Samples C G B))
    (adata : AnnDataIn C G B) (s : Samples C G B) (kw : SampleKw)
    (fvp nrm : Bool) :
    (exportPosterior mn d sq prev1 adata s kw fvp nrm).selfSamples = some s ∧
    (exportPosterior mn d sq prev1 adata s kw fvp nrm).uns_export =
      some (export2adata mn d adata s) ∧
    exportPosterior mn d sq prev1 adata s kw fvp nrm =
      exportPosterior mn d sq prev2 adata s kw fvp nrm := by
  refine ⟨?_, ?_, rfl⟩ <;>
  · cases hkw : kw.normalized with
    | none => simp [exportPosterior, hkw]
    | some rs =>
        cases rs with
        | false => simp [exportPosterior, hkw, fullAssignOutcome]
        | true =>
            cases hps : s.posterior_samples with
            | none => simp [exportPosterior, hkw, hps]
            | some ps => simp [exportPosterior, hkw, hps, fullAssignOutcome]

end Cell2fate
